import Mathlib

/-!
Verification of the HMC5883L magnetometer driver (HMC5883L.cpp v0.2, HMC5883L.h,
Vec3.h / I2CDev.cpp) against its natural-language specification.

Shallow embedding conventions:
* The I2C bus (I2CDev + the device behind it) is modelled as a register file
  `regs : Nat → Nat` (bytes, so every read is taken mod 256 and every write
  stores mod 256), a fault schedule `faults : List Nat` (one error code consumed
  per bus transaction, head first; an empty or exhausted list means the
  transaction succeeds, matching `Wire.endTransmission` returning 0), and an
  append-only `trace` of the transactions attempted, used to state claims about
  bus activity.
* `I2CDev::read_data_byte` returns 0 on a failed read and sets the transport
  error code (see I2CDev.cpp); `read_data` returns NULL on failure.  These are
  modelled by returning the error code alongside the value / an Option.
* Driver member state (caches, calibration, `err_code`) is threaded explicitly:
  each member function takes and returns an `HMC5883L` record.
* C `float`/`double` arithmetic is modelled with exact rationals; all claim
  instances involve values on which float rounding plays no role.
* `usleep` only delays; it has no effect on any modelled state, so it is
  omitted.
* Out-parameters (`saturated`, `isLocked`, `isReady`) are modelled as `Option`
  results: `none` means the pointer was never written through.
-/

/-- Cartesian 3-vector, from Vec3.h (element-wise arithmetic). -/
structure Vec3 (α : Type) where
  x : α
  y : α
  z : α
deriving DecidableEq

/-- One I2C bus transaction as issued by the driver. -/
inductive Transaction where
  | readTx (reg len : Nat)
  | writeTx (reg val : Nat)
deriving DecidableEq

/-- The bus: device register file, per-transaction fault schedule, trace. -/
structure I2CBus where
  regs : Nat → Nat
  faults : List Nat
  trace : List Transaction

/-- Consume the next scheduled fault (0 = transaction succeeds). -/
def I2CBus.nextFault (b : I2CBus) : Nat × I2CBus :=
  (b.faults.headD 0, { b with faults := b.faults.tail })

/-- Model of I2CDev::read_data_byte: value (0 on failure), error code, new bus. -/
def I2CBus.readByte (b : I2CBus) (reg : Nat) : Nat × Nat × I2CBus :=
  let f := b.nextFault
  let b' := { f.2 with trace := f.2.trace ++ [Transaction.readTx reg 1] }
  if f.1 ≠ 0 then (0, f.1, b') else (b.regs reg % 256, 0, b')

/-- Model of I2CDev::read_data: the bytes (none on failure), error code, new bus. -/
def I2CBus.readBlock (b : I2CBus) (reg len : Nat) : Option (List Nat) × Nat × I2CBus :=
  let f := b.nextFault
  let b' := { f.2 with trace := f.2.trace ++ [Transaction.readTx reg len] }
  if f.1 ≠ 0 then (none, f.1, b')
  else (some ((List.range len).map fun i => b.regs (reg + i) % 256), 0, b')

/-- Model of I2CDev::write_data: error code and new bus (register updated on success). -/
def I2CBus.writeByte (b : I2CBus) (reg val : Nat) : Nat × I2CBus :=
  let f := b.nextFault
  if f.1 ≠ 0 then (f.1, { f.2 with trace := f.2.trace ++ [Transaction.writeTx reg (val % 256)] })
  else (0, { f.2 with
              regs := fun r => if r = reg then val % 256 else f.2.regs r,
              trace := f.2.trace ++ [Transaction.writeTx reg (val % 256)] })

/-! Register addresses and named constants, from HMC5883L.h. -/

def ConfigRegisterA : Nat := 0x00
def ConfigRegisterB : Nat := 0x01
def ModeRegister : Nat := 0x02
def DataRegister : Nat := 0x03
def StatusRegister : Nat := 0x09

def HMC_BIAS_XY : ℚ := 1160
def HMC_BIAS_Z : ℚ := 1080

def EC_BAD_GAIN_LEVEL : Nat := 8
def EC_INVALID_NAVG : Nat := 9
def EC_INVALID_OUTRATE : Nat := 10
def EC_INVALID_MEASUREMENT_MODE : Nat := 11
def EC_INVALID_BIAS_MODE : Nat := 12
def EC_INVALID_UFLOAT : Nat := 13

def WC_X_SATURATED : Nat := 1
def WC_Y_SATURATED : Nat := 2
def WC_Z_SATURATED : Nat := 4

/-- Resolution lookup table gainValues, from HMC5883L.cpp (mG per LSB). -/
def gainValues : List ℚ :=
  [73/100, 92/100, 122/100, 152/100, 227/100, 256/100, 303/100, 435/100]

/-- Driver member state: bus handle, calibration, setting caches, error code. -/
structure HMC5883L where
  bus : I2CBus
  calibration : Vec3 ℚ
  gain : Nat
  averagingRate : Nat
  outputRate : Nat
  measurementMode : Nat
  biasMode : Nat
  err_code : Nat

/-- HMC5883L::setGain.  Note: it never assigns the member err_code. -/
def setGain (gain_level : Nat) (s : HMC5883L) : Nat × HMC5883L :=
  if gain_level > 7 then (EC_BAD_GAIN_LEVEL, s)
  else
    let w := s.bus.writeByte ConfigRegisterB (gain_level <<< 5)
    if w.1 ≠ 0 then (w.1, { s with bus := w.2 })
    else (0, { s with bus := w.2, gain := gain_level })

/-- HMC5883L::setAveragingRate (Config A, bits 5-6, mask 0x9f kept). -/
def setAveragingRate (avg_rate : Nat) (s : HMC5883L) : Nat × HMC5883L :=
  if avg_rate > 3 then (EC_INVALID_NAVG, s)
  else
    let r := s.bus.readByte ConfigRegisterA
    let configRegister := r.1 &&& 0x9f
    if r.2.1 ≠ 0 then (r.2.1, { s with bus := r.2.2, err_code := r.2.1 })
    else
      let w := r.2.2.writeByte ConfigRegisterA ((avg_rate <<< 5) ||| configRegister)
      if w.1 ≠ 0 then (w.1, { s with bus := w.2, err_code := w.1 })
      else (0, { s with bus := w.2, err_code := 0, averagingRate := avg_rate })

/-- HMC5883L::setOutputRate (Config A, bits 2-4, mask 0xe3 kept). -/
def setOutputRate (out_rate : Nat) (s : HMC5883L) : Nat × HMC5883L :=
  if out_rate > 6 then (EC_INVALID_OUTRATE, s)
  else
    let r := s.bus.readByte ConfigRegisterA
    let configRegister := r.1 &&& 0xe3
    if r.2.1 ≠ 0 then (r.2.1, { s with bus := r.2.2, err_code := r.2.1 })
    else
      let w := r.2.2.writeByte ConfigRegisterA ((out_rate <<< 2) ||| configRegister)
      if w.1 ≠ 0 then (w.1, { s with bus := w.2, err_code := w.1 })
      else (0, { s with bus := w.2, err_code := 0, outputRate := out_rate })

/-- HMC5883L::setMeasurementMode (Mode register, bits 0-1, bit 7 kept). -/
def setMeasurementMode (mode : Nat) (s : HMC5883L) : Nat × HMC5883L :=
  if mode > 2 then (EC_INVALID_MEASUREMENT_MODE, s)
  else
    let r := s.bus.readByte ModeRegister
    let modeRegister := r.1 &&& 0x80
    if r.2.1 ≠ 0 then (r.2.1, { s with bus := r.2.2, err_code := r.2.1 })
    else
      let w := r.2.2.writeByte ModeRegister (mode ||| modeRegister)
      if w.1 ≠ 0 then (w.1, { s with bus := w.2, err_code := w.1 })
      else (0, { s with bus := w.2, err_code := 0, measurementMode := mode })

/-- HMC5883L::setBiasMode (Config A, bits 0-1, mask 0xfc kept). -/
def setBiasMode (mode : Nat) (s : HMC5883L) : Nat × HMC5883L :=
  if mode > 2 then (EC_INVALID_BIAS_MODE, s)
  else
    let r := s.bus.readByte ConfigRegisterA
    let configRegister := r.1 &&& 0xfc
    if r.2.1 ≠ 0 then (r.2.1, { s with bus := r.2.2, err_code := r.2.1 })
    else
      let w := r.2.2.writeByte ConfigRegisterA (mode ||| configRegister)
      if w.1 ≠ 0 then (w.1, { s with bus := w.2, err_code := w.1 })
      else (0, { s with bus := w.2, err_code := 0, biasMode := mode })

/-- HMC5883L::setHighSpeedI2CMode.  Transcribed exactly: the value written back is
modeRegister AND (enabled ? 0x80 : 0x00), where modeRegister is the prior byte
already masked with 0x80. -/
def setHighSpeedI2CMode (enabled : Bool) (s : HMC5883L) : Nat × HMC5883L :=
  let r := s.bus.readByte ModeRegister
  let modeRegister := r.1 &&& 0x80
  if r.2.1 ≠ 0 then (r.2.1, { s with bus := r.2.2, err_code := r.2.1 })
  else
    let w := r.2.2.writeByte ModeRegister (modeRegister &&& (if enabled then 0x80 else 0x00))
    (w.1, { s with bus := w.2, err_code := w.1 })

/-- HMC5883L::getGain.  On success returns the gain level (not 0). -/
def getGain (updateCache : Bool) (s : HMC5883L) : Nat × HMC5883L :=
  if updateCache then
    let r := s.bus.readByte ConfigRegisterB
    if r.2.1 ≠ 0 then (r.2.1, { s with bus := r.2.2, err_code := r.2.1 })
    else (r.1 >>> 5, { s with bus := r.2.2, err_code := 0, gain := r.1 >>> 5 })
  else (s.gain, s)

/-- HMC5883L::getAveragingRate. -/
def getAveragingRate (updateCache : Bool) (s : HMC5883L) : Nat × HMC5883L :=
  if updateCache then
    let r := s.bus.readByte ConfigRegisterA
    if r.2.1 ≠ 0 then (r.2.1, { s with bus := r.2.2, err_code := r.2.1 })
    else ((r.1 &&& 0x60) >>> 5,
          { s with bus := r.2.2, err_code := 0, averagingRate := (r.1 &&& 0x60) >>> 5 })
  else (s.averagingRate, s)

/-- HMC5883L::getOutputRate. -/
def getOutputRate (updateCache : Bool) (s : HMC5883L) : Nat × HMC5883L :=
  if updateCache then
    let r := s.bus.readByte ConfigRegisterA
    if r.2.1 ≠ 0 then (r.2.1, { s with bus := r.2.2, err_code := r.2.1 })
    else ((r.1 &&& 0x1c) >>> 2,
          { s with bus := r.2.2, err_code := 0, outputRate := (r.1 &&& 0x1c) >>> 2 })
  else (s.outputRate, s)

/-- HMC5883L::getMeasurementMode.  Re-reads whenever updateCache is true or the
cached mode is single-shot (1).  Transcribed exactly: it never inspects the
transport error code after the read. -/
def getMeasurementMode (updateCache : Bool) (s : HMC5883L) : Nat × HMC5883L :=
  if updateCache || s.measurementMode == 1 then
    let r := s.bus.readByte ModeRegister
    let m := r.1 &&& 0x3
    (m, { s with bus := r.2.2, measurementMode := m })
  else (s.measurementMode, s)

/-- HMC5883L::getBiasMode.  Transcribed exactly: no transport-error check. -/
def getBiasMode (updateCache : Bool) (s : HMC5883L) : Nat × HMC5883L :=
  if updateCache then
    let r := s.bus.readByte ConfigRegisterA
    (r.1 &&& 0x3, { s with bus := r.2.2, biasMode := r.1 &&& 0x3 })
  else (s.biasMode, s)

/-- HMC5883L::getStatus: status value (4 on failure), isLocked and isReady
out-parameters (none when the pointers are never written), new state. -/
def getStatus (s : HMC5883L) : Nat × Option Bool × Option Bool × HMC5883L :=
  let r := s.bus.readByte StatusRegister
  let regValue := r.1 &&& 0x3
  if r.2.1 ≠ 0 then (4, none, none, { s with bus := r.2.2, err_code := r.2.1 })
  else (regValue, some ((regValue &&& 2) != 0), some ((regValue &&& 1) != 0),
        { s with bus := r.2.2, err_code := 0 })

/-- Two's-complement reinterpretation of a value as int16_t, as in the C casts. -/
def toInt16 (v : Nat) : Int :=
  if v % 65536 < 32768 then ((v % 65536 : Nat) : Int) else ((v % 65536 : Nat) : Int) - 65536

/-- HMC5883L::readRawValues: 6-byte burst read from the data registers, bytes
assembled big-endian in axis order X (bytes 0-1), Z (bytes 2-3), Y (bytes 4-5),
with the -4096 saturation sentinel flagged per axis. -/
def readRawValues (s : HMC5883L) : Vec3 Int × Option Nat × HMC5883L :=
  let r := s.bus.readBlock DataRegister 6
  match r.1 with
  | none => (⟨0, 0, 0⟩, none, { s with bus := r.2.2, err_code := r.2.1 })
  | some bytes =>
    let b := fun i => bytes.getD i 0
    let x := toInt16 ((b 0) <<< 8 ||| b 1)
    let y := toInt16 ((b 4) <<< 8 ||| b 5)
    let z := toInt16 ((b 2) <<< 8 ||| b 3)
    let sat := (if x = -4096 then WC_X_SATURATED else 0) |||
               (if y = -4096 then WC_Y_SATURATED else 0) |||
               (if z = -4096 then WC_Z_SATURATED else 0)
    (⟨x, y, z⟩, some sat, { s with bus := r.2.2, err_code := 0 })

/-- HMC5883L::readScaledValues: raw values scaled by gainValues[gain]. -/
def readScaledValues (s : HMC5883L) : Vec3 ℚ × Option Nat × HMC5883L :=
  let r := readRawValues s
  let s' := r.2.2
  if s'.err_code ≠ 0 then (⟨0, 0, 0⟩, r.2.1, s')
  else
    let g := gainValues.getD s'.gain 0
    (⟨r.1.x * g, r.1.y * g, r.1.z * g⟩, r.2.1, s')

/-- Outcome of the status-polling loop in readScaledValuesSingle. -/
inductive PollResult where
  | pollErr (s : HMC5883L)
  | pollDone (s : HMC5883L)

/-- State carried by a PollResult. -/
def PollResult.state : PollResult → HMC5883L
  | .pollErr s => s
  | .pollDone s => s

/-- The while loop of readScaledValuesSingle for max_retries > 0: the condition
retries++ < max_retries gives exactly max_retries iterations, each one polling
getStatus once; the call site assigns the return value of getStatus to the
member err_code and returns on any non-zero value.  usleep has no modelled
effect. -/
def pollStatus : Nat → HMC5883L → PollResult
  | 0, s => .pollDone s
  | fuel + 1, s =>
    let r := getStatus s
    let s' := { r.2.2.2 with err_code := r.1 }
    if r.1 ≠ 0 then .pollErr s'
    else if r.2.1 = some false ∧ r.2.2.1 = some true then .pollDone s'
    else pollStatus fuel s'

/-- HMC5883L::readScaledValuesSingle.  The while condition is
max_retries && retries++ < max_retries, so with max_retries = 0 the loop body
never runs at all. -/
def readScaledValuesSingle (mr : Nat) (dt : ℚ) (s : HMC5883L) :
    Vec3 ℚ × Option Nat × HMC5883L :=
  let zv : Vec3 ℚ := ⟨0, 0, 0⟩
  if dt < 0 then (zv, none, { s with err_code := EC_INVALID_UFLOAT })
  else
    let m := getMeasurementMode false s
    let r1 := setMeasurementMode 1 m.2
    if r1.1 ≠ 0 then (zv, none, { r1.2 with err_code := r1.1 })
    else
      match (if mr = 0 then PollResult.pollDone { r1.2 with err_code := 0 }
             else pollStatus mr { r1.2 with err_code := 0 }) with
      | .pollErr s2 => (zv, none, s2)
      | .pollDone s2 =>
        let r2 := readScaledValues s2
        let old := r2.2.2.err_code
        let r3 := setMeasurementMode m.1 r2.2.2
        let s3 : HMC5883L := { r3.2 with err_code := if r3.1 = 0 then old else r3.1 }
        if s3.err_code ≠ 0 then (zv, r2.2.1, s3)
        else (r2.1, r2.2.1, s3)

/-- HMC5883L::runPosTest: positive-bias self test with bias-mode restoration. -/
def runPosTest (mr : Nat) (dt : ℚ) (s : HMC5883L) : Vec3 ℚ × Option Nat × HMC5883L :=
  let zv : Vec3 ℚ := ⟨0, 0, 0⟩
  let r0 := setBiasMode 1 s
  if r0.1 ≠ 0 then (zv, none, { r0.2 with err_code := r0.1 })
  else
    let r1 := readScaledValuesSingle mr dt { r0.2 with err_code := 0 }
    let old := r1.2.2.err_code
    let r2 := setBiasMode 0 r1.2.2
    let s2 : HMC5883L := { r2.2 with err_code := if r2.1 = 0 then old else r2.1 }
    if s2.err_code ≠ 0 then (zv, r1.2.1, s2)
    else (r1.1, r1.2.1, s2)

/-- HMC5883L::runNegTest: negative-bias self test (delay parameter is uint32_t
in the source; it only feeds usleep, which has no modelled effect). -/
def runNegTest (mr : Nat) (dt : Nat) (s : HMC5883L) : Vec3 ℚ × Option Nat × HMC5883L :=
  let zv : Vec3 ℚ := ⟨0, 0, 0⟩
  let r0 := setBiasMode 2 s
  if r0.1 ≠ 0 then (zv, none, { r0.2 with err_code := r0.1 })
  else
    let r1 := readScaledValuesSingle mr (dt : ℚ) { r0.2 with err_code := 0 }
    let old := r1.2.2.err_code
    let r2 := setBiasMode 0 r1.2.2
    let s2 : HMC5883L := { r2.2 with err_code := if r2.1 = 0 then old else r2.1 }
    if s2.err_code ≠ 0 then (zv, r1.2.1, s2)
    else (r1.1, r1.2.1, s2)

/-- Conversion of the float delay to the uint32_t parameter of runNegTest at the
call site inside getCalibration (truncation; only non-negative values reach it). -/
def ratToUint32 (q : ℚ) : Nat := q.floor.toNat % 4294967296

/-- The calibration computation of HMC5883L::getCalibration lines 316-319:
average of the two test readings, divided per axis by the self-test bias field. -/
def calibUpdate (pos neg : Vec3 ℚ) : Vec3 ℚ :=
  ⟨((pos.x + neg.x) / 2) / HMC_BIAS_XY,
   ((pos.y + neg.y) / 2) / HMC_BIAS_XY,
   ((pos.z + neg.z) / 2) / HMC_BIAS_Z⟩

/-- HMC5883L::getCalibration. -/
def getCalibration (update : Bool) (mr : Nat) (dt : ℚ) (s : HMC5883L) :
    Vec3 ℚ × HMC5883L :=
  if update then
    let p := runPosTest mr dt s
    if p.2.2.err_code ≠ 0 then (⟨0, 0, 0⟩, p.2.2)
    else
      let n := runNegTest mr (ratToUint32 dt) p.2.2
      if n.2.2.err_code ≠ 0 then (⟨0, 0, 0⟩, n.2.2)
      else
        let cal := calibUpdate p.1 n.1
        (cal, { n.2.2 with calibration := cal })
  else (s.calibration, s)

/-- HMC5883L::initialize (renamed; the member function of HMC5883L.cpp).
It unconditionally resets the calibration to (1,1,1) before branching.  In the
noConfig branch each step is `if (!(rv = getX(true))) { if (err_code) { return
err_code; } }`, so the early return fires only when the getter returned 0 while
the member err_code is non-zero, and the final return value is rv from the last
getter, getBiasMode(true). -/
def initDriver (noConfig : Bool) (s : HMC5883L) : Nat × HMC5883L :=
  let s0 := { s with calibration := ⟨1, 1, 1⟩ }
  if !noConfig then
    let r1 := setGain 1 s0
    if r1.1 ≠ 0 then (r1.1, { r1.2 with err_code := r1.1 }) else
    let r2 := setAveragingRate 0 r1.2
    if r2.1 ≠ 0 then (r2.1, { r2.2 with err_code := r2.1 }) else
    let r3 := setOutputRate 4 r2.2
    if r3.1 ≠ 0 then (r3.1, { r3.2 with err_code := r3.1 }) else
    let r4 := setMeasurementMode 2 r3.2
    if r4.1 ≠ 0 then (r4.1, { r4.2 with err_code := r4.1 }) else
    let r5 := setBiasMode 0 r4.2
    if r5.1 ≠ 0 then (r5.1, { r5.2 with err_code := r5.1 }) else
    (0, r5.2)
  else
    let g1 := getGain true s0
    if g1.1 = 0 ∧ g1.2.err_code ≠ 0 then (g1.2.err_code, g1.2) else
    let g2 := getAveragingRate true g1.2
    if g2.1 = 0 ∧ g2.2.err_code ≠ 0 then (g2.2.err_code, g2.2) else
    let g3 := getOutputRate true g2.2
    if g3.1 = 0 ∧ g3.2.err_code ≠ 0 then (g3.2.err_code, g3.2) else
    let g4 := getMeasurementMode true g3.2
    if g4.1 = 0 ∧ g4.2.err_code ≠ 0 then (g4.2.err_code, g4.2) else
    let g5 := getBiasMode true g4.2
    if g5.1 = 0 ∧ g5.2.err_code ≠ 0 then (g5.2.err_code, g5.2) else
    (g5.1, g5.2)

/-! Concrete devices and driver states used by witnesses and counterexamples. -/

/-- Build a bus whose register file is given by a list (other registers read 0). -/
def mkBus (rl : List Nat) (faults : List Nat) : I2CBus :=
  { regs := fun r => rl.getD r 0, faults := faults, trace := [] }

/-- Build a driver state over a bus with the given caches. -/
def mkState (bus : I2CBus) (cal : Vec3 ℚ) (g a o m b e : Nat) : HMC5883L :=
  { bus := bus, calibration := cal, gain := g, averagingRate := a,
    outputRate := o, measurementMode := m, biasMode := b, err_code := e }

/-- Healthy device for the calibration witness: ConfigA 0, ConfigB 0, Mode 2,
data bytes (0,100, 0,50, 0,25), status always 0; gain cache 1, idle mode. -/
def devCal : HMC5883L :=
  mkState (mkBus [0, 0, 2, 0, 100, 0, 50, 0, 25, 0] []) ⟨1, 1, 1⟩ 1 0 4 2 0 0

/-- Device that never reports ready: status register always 0, no faults. -/
def devNeverReady : HMC5883L :=
  mkState (mkBus [0, 0, 0, 0, 0, 0, 0, 0, 0, 0] []) ⟨1, 1, 1⟩ 0 0 4 0 0 0

/-- Device run where the measurement read fails (code 2) and the mode-restore
read also fails (code 3); everything before succeeds (fault list is consumed
one entry per transaction). -/
def devReadAndRestoreFail : HMC5883L :=
  mkState (mkBus [0, 0, 0, 0, 0, 0, 0, 0, 0, 0] [0, 0, 0, 2, 3]) ⟨1, 1, 1⟩ 0 0 4 0 0 0

/-- Device run for runPosTest where the data read fails (code 2), the mode
restore succeeds, and then the bias-restore read fails (code 3). -/
def devPosTestRestoreFail : HMC5883L :=
  mkState (mkBus [0, 0, 0, 0, 0, 0, 0, 0, 0, 0] [0, 0, 0, 0, 0, 2, 0, 0, 3]) ⟨1, 1, 1⟩ 0 0 4 0 0 0

/-- Device whose first register read fails (code 2) and all later transactions
succeed, with a non-default calibration in the cache. -/
def devFirstReadFails : HMC5883L :=
  mkState (mkBus [0, 0, 0, 0, 0, 0, 0, 0, 0, 0] [2]) ⟨5, 5, 5⟩ 0 0 4 0 0 0

/-- Fault-free device with distinctive register contents: ConfigA 0x6e
(avg 3, rate 3, bias 2), ConfigB 0x40 (gain 2), Mode 0x81 (mode 1, HS bit). -/
def devDistinct : HMC5883L :=
  mkState (mkBus [0x6e, 0x40, 0x81, 0, 0, 0, 0, 0, 0, 0] []) ⟨2, 2, 2⟩ 0 0 0 0 0 0

/-- Device with the mode register holding 0x02 (idle measurement mode). -/
def devIdleMode : HMC5883L :=
  mkState (mkBus [0, 0, 0x02, 0, 0, 0, 0, 0, 0, 0] []) ⟨1, 1, 1⟩ 0 0 4 2 0 0

/-- Device with the mode register holding 0 and the high-speed bit clear. -/
def devZeroMode : HMC5883L :=
  mkState (mkBus [0, 0, 0, 0, 0, 0, 0, 0, 0, 0] []) ⟨1, 1, 1⟩ 0 0 4 0 0 0

/-- Fault-free device with register 0xff in Config A for the isolation witness. -/
def devAllOnes : HMC5883L :=
  mkState (mkBus [0xff, 0, 0, 0, 0, 0, 0, 0, 0, 0] []) ⟨1, 1, 1⟩ 0 0 0 0 0 0

/-- Device holding the data bytes of the decoding example:
(0x00, 0x0A, 0xF0, 0x00, 0x00, 0x14) at registers 3 to 8. -/
def devDecodeExample : HMC5883L :=
  mkState (mkBus [0, 0, 0, 0x00, 0x0a, 0xf0, 0x00, 0x00, 0x14, 0] []) ⟨1, 1, 1⟩ 1 0 4 0 0 0

/-- Device with a single-shot cached measurement mode, registers fault-free. -/
def devCachedSingle : HMC5883L :=
  mkState (mkBus [0, 0, 2, 0, 0, 0, 0, 0, 0, 0] []) ⟨1, 1, 1⟩ 0 0 4 1 0 0

/-- Device whose only scheduled transaction fails with code 2, with a stale but
clean driver error code and an idle cached mode. -/
def devFailNack : HMC5883L :=
  mkState (mkBus [0, 0, 2, 0, 0, 0, 0, 0, 0, 0] [2]) ⟨1, 1, 1⟩ 0 0 4 2 0 0

/-- Device whose next transaction fails with code 3. -/
def devFailOther : HMC5883L :=
  mkState (mkBus [0, 0, 0, 0, 0, 0, 0, 0, 0, 1] [3]) ⟨1, 1, 1⟩ 0 0 4 0 0 0

/-- The specification's reading of a big-endian two's-complement 16-bit pair:
high byte, low byte. -/
def specTwosComplement16 (hi lo : Nat) : Int :=
  if hi * 256 + lo < 32768 then ((hi * 256 + lo : Nat) : Int)
  else ((hi * 256 + lo : Nat) : Int) - 65536

/-- Number of status-register polls recorded in a bus trace. -/
def statusPolls (tr : List Transaction) : Nat :=
  tr.countP fun t => t == Transaction.readTx StatusRegister 1

/-! Intermediate states of the two concrete runs used by the C3 witness. -/

def c3s2 : HMC5883L := (setMeasurementMode 1 devReadAndRestoreFail).2
def c3s3 : HMC5883L := (pollStatus 1 { c3s2 with err_code := 0 }).state
def c3v : Vec3 ℚ := (readScaledValues c3s3).1
def c3sat : Option Nat := (readScaledValues c3s3).2.1
def c3s4 : HMC5883L := (readScaledValues c3s3).2.2
def c3e2 : Nat := (setMeasurementMode 0 c3s4).1
def c3s5 : HMC5883L := (setMeasurementMode 0 c3s4).2

def c3bsb : HMC5883L := (setBiasMode 1 devPosTestRestoreFail).2
def c3bv : Vec3 ℚ := (readScaledValuesSingle 1 7 { c3bsb with err_code := 0 }).1
def c3bsat : Option Nat := (readScaledValuesSingle 1 7 { c3bsb with err_code := 0 }).2.1
def c3bs2 : HMC5883L := (readScaledValuesSingle 1 7 { c3bsb with err_code := 0 }).2.2
def c3be2 : Nat := (setBiasMode 0 c3bs2).1
def c3bs3 : HMC5883L := (setBiasMode 0 c3bs2).2

/-- The three Config A setters applied in sequence: averaging, output rate,
bias mode. -/
def configABC (a o b : Nat) (s : HMC5883L) : HMC5883L :=
  (setBiasMode b (setOutputRate o (setAveragingRate a s).2).2).2

/-! Helper lemmas (shared). -/

theorem shiftLeft_lor_eq_add {a b : Nat} (hb : b < 256) : a <<< 8 ||| b = a * 256 + b := by
  have hb' : b < 2 ^ 8 := by omega
  apply Nat.eq_of_testBit_eq
  intro i
  rw [Nat.testBit_lor, Nat.testBit_shiftLeft]
  have h256 : (256 : Nat) = 2 ^ 8 := by norm_num
  rw [h256, Nat.mul_comm a (2 ^ 8), Nat.testBit_mul_pow_two_add a hb']
  by_cases h : i < 8
  · have h2 : ¬ (8 ≤ i) := by omega
    simp [h, h2]
  · have h2 : 8 ≤ i := by omega
    have hbf : b.testBit i = false :=
      Nat.testBit_lt_two_pow (lt_of_lt_of_le hb' (Nat.pow_le_pow_right (by norm_num) h2))
    simp [h, h2, hbf]

theorem toInt16_bigEndian {hi lo : Nat} (hh : hi < 256) (hl : lo < 256) :
    toInt16 (hi <<< 8 ||| lo) = specTwosComplement16 hi lo := by
  rw [shiftLeft_lor_eq_add hl]
  have hlt : hi * 256 + lo < 65536 := by omega
  unfold toInt16 specTwosComplement16
  rw [Nat.mod_eq_of_lt hlt]

/-- Claim C7: readRawValues reassembles the six data bytes as big-endian
two's-complement 16-bit values in axis order X (bytes 0-1), Z (bytes 2-3),
Y (bytes 4-5), and flags each axis whose value equals -4096 in the saturation
mask; in particular, for input bytes 0x00,0x0A, 0xF0,0x00, 0x00,0x14 it returns
x = 10, z = -4096, y = 20 with a saturation mask reporting only Z saturated. -/
theorem readRawValues_bigEndian_XZY_saturation :
    (∀ (s : HMC5883L) (b0 b1 b2 b3 b4 b5 : Nat),
      s.bus.faults = [] →
      s.bus.regs 3 = b0 → s.bus.regs 4 = b1 → s.bus.regs 5 = b2 →
      s.bus.regs 6 = b3 → s.bus.regs 7 = b4 → s.bus.regs 8 = b5 →
      b0 < 256 → b1 < 256 → b2 < 256 → b3 < 256 → b4 < 256 → b5 < 256 →
      (readRawValues s).1 = ⟨specTwosComplement16 b0 b1, specTwosComplement16 b4 b5,
                             specTwosComplement16 b2 b3⟩ ∧
      ∃ m, (readRawValues s).2.1 = some m ∧
        ((m &&& WC_X_SATURATED ≠ 0) ↔ specTwosComplement16 b0 b1 = -4096) ∧
        ((m &&& WC_Y_SATURATED ≠ 0) ↔ specTwosComplement16 b4 b5 = -4096) ∧
        ((m &&& WC_Z_SATURATED ≠ 0) ↔ specTwosComplement16 b2 b3 = -4096))
    ∧ (readRawValues devDecodeExample).1 = ⟨10, 20, -4096⟩
    ∧ (readRawValues devDecodeExample).2.1 = some WC_Z_SATURATED := by
  refine ⟨?_, by decide, by decide⟩
  intro s b0 b1 b2 b3 b4 b5 hf h0 h1 h2 h3 h4 h5 l0 l1 l2 l3 l4 l5
  have hrange : List.range 6 = [0, 1, 2, 3, 4, 5] := by decide
  simp only [readRawValues, I2CBus.readBlock, I2CBus.nextFault, hf, List.headD, List.tail,
    ne_eq, not_true_eq_false, if_false, hrange, List.map, DataRegister, List.getD,
    List.getElem?_cons_zero, List.getElem?_cons_succ, Option.getD_some]
  norm_num [h0, h1, h2, h3, h4, h5, Nat.mod_eq_of_lt, l0, l1, l2, l3, l4, l5,
    Nat.mod_eq_of_lt l0, Nat.mod_eq_of_lt l1, Nat.mod_eq_of_lt l2, Nat.mod_eq_of_lt l3,
    Nat.mod_eq_of_lt l4, Nat.mod_eq_of_lt l5]
  rw [toInt16_bigEndian l0 l1, toInt16_bigEndian l4 l5, toInt16_bigEndian l2 l3]
  by_cases hx : specTwosComplement16 b0 b1 = -4096 <;>
    by_cases hy : specTwosComplement16 b4 b5 = -4096 <;>
    by_cases hz : specTwosComplement16 b2 b3 = -4096 <;>
    simp [hx, hy, hz, WC_X_SATURATED, WC_Y_SATURATED, WC_Z_SATURATED] <;> decide

/-- Witness for C7: the decoding theorem applied to the concrete example device. -/
theorem readRawValues_bigEndian_XZY_saturation_witness :
    devDecodeExample.bus.faults = [] ∧
    (readRawValues devDecodeExample).1 =
      ⟨specTwosComplement16 0 10, specTwosComplement16 0 20, specTwosComplement16 240 0⟩ :=
  ⟨rfl,
   (readRawValues_bigEndian_XZY_saturation.1 devDecodeExample 0 10 240 0 0 20
      rfl rfl rfl rfl rfl rfl rfl
      (by decide) (by decide) (by decide) (by decide) (by decide) (by decide)).1⟩

/-- Claim C8: for every gain level g in 0..7, a successful setGain(g) followed by
getGain(false) returns g with no further bus activity (the state, trace
included, is untouched by the getter); for every g > 7, setGain(g) returns
EC_BAD_GAIN_LEVEL with the state completely unchanged -- no bus transaction,
cached gain untouched. -/
theorem setGain_getGain_roundtrip :
    ∀ (g : Nat) (s : HMC5883L),
      ((setGain g s).1 = 0 → getGain false (setGain g s).2 = (g, (setGain g s).2))
      ∧ (g > 7 → setGain g s = (EC_BAD_GAIN_LEVEL, s)) := by
  intro g s
  constructor
  · intro hok
    by_cases hg : g > 7
    · rw [setGain, if_pos hg] at hok
      simp [EC_BAD_GAIN_LEVEL] at hok
    · rw [setGain, if_neg hg] at hok ⊢
      by_cases hw : (s.bus.writeByte ConfigRegisterB (g <<< 5)).1 ≠ 0
      · rw [if_pos hw] at hok
        exact absurd hok hw
      · rw [if_neg hw]
        rfl
  · intro hg
    rw [setGain, if_pos hg]

/-- Witness for C8: round trip at gain level 3 on a fault-free device, and the
out-of-range rejection at gain level 8. -/
theorem setGain_getGain_roundtrip_witness :
    ((setGain 3 devZeroMode).1 = 0 ∧
     getGain false (setGain 3 devZeroMode).2 = (3, (setGain 3 devZeroMode).2)) ∧
    (8 > 7 ∧ setGain 8 devZeroMode = (EC_BAD_GAIN_LEVEL, devZeroMode)) :=
  ⟨⟨rfl, (setGain_getGain_roundtrip 3 devZeroMode).1 rfl⟩,
   ⟨by decide, (setGain_getGain_roundtrip 8 devZeroMode).2 (by decide)⟩⟩

/-- Claim C10: when the transport read fails, readRawValues returns the zero
vector without writing through the caller's saturated pointer, and getStatus
returns the in-band failure value 4 without writing through isLocked or
isReady. -/
theorem errorPaths_leave_out_params_unwritten :
    ∀ (s : HMC5883L) (e : Nat) (rest : List Nat),
      s.bus.faults = e :: rest → e ≠ 0 →
      (readRawValues s).1 = ⟨0, 0, 0⟩ ∧
      (readRawValues s).2.1 = none ∧
      (getStatus s).1 = 4 ∧
      (getStatus s).2.1 = none ∧
      (getStatus s).2.2.1 = none := by
  intro s e rest hf he
  refine ⟨?_, ?_, ?_, ?_, ?_⟩ <;>
    simp [readRawValues, getStatus, I2CBus.readBlock, I2CBus.readByte, I2CBus.nextFault,
      hf, he]

/-- Witness for C10: a device whose next transaction fails with code 3. -/
theorem errorPaths_leave_out_params_unwritten_witness :
    devFailOther.bus.faults = 3 :: [] ∧ (3 : Nat) ≠ 0 ∧
    (readRawValues devFailOther).1 = ⟨0, 0, 0⟩ ∧
    (readRawValues devFailOther).2.1 = none ∧
    (getStatus devFailOther).1 = 4 ∧
    (getStatus devFailOther).2.1 = none ∧
    (getStatus devFailOther).2.2.1 = none := by
  have h := errorPaths_leave_out_params_unwritten devFailOther 3 [] rfl (by decide)
  exact ⟨rfl, by decide, h.1, h.2.1, h.2.2.1, h.2.2.2.1, h.2.2.2.2⟩

/-- Claim C9 (code bug evidence): getMeasurementMode(update=true) on a device
whose read transaction fails with transport code 2 returns 0, caches 0, and
leaves the driver err_code at 0 -- the transport error is not propagated, even
though the bus was touched (the failed read is in the trace).  The final
conjunct documents the true half of the claim: with a cached single-shot mode
the getter re-reads the device even when update is false. -/
theorem getMeasurementMode_swallows_transport_error :
    (getMeasurementMode true devFailNack).1 = 0 ∧
    (getMeasurementMode true devFailNack).2.err_code = 0 ∧
    (getMeasurementMode true devFailNack).2.measurementMode = 0 ∧
    (getMeasurementMode true devFailNack).2.bus.trace = [Transaction.readTx ModeRegister 1] ∧
    devFailNack.bus.faults = [2] ∧
    (getMeasurementMode false devCachedSingle).2.bus.trace =
      [Transaction.readTx ModeRegister 1] := by
  decide

/-- Claim C5 (code bug evidence): setHighSpeedI2CMode writes back a byte with
the measurement-mode bits forced to zero.  On a device whose mode register
holds 0x02 (idle), enabling high-speed mode succeeds but writes 0x00: the
idle measurement-mode bits are clobbered.  Moreover, on a device with the
high-speed bit clear, enabling does not set bit 7 either. -/
theorem setHighSpeedI2CMode_clobbers_mode_bits :
    (setHighSpeedI2CMode true devIdleMode).1 = 0 ∧
    devIdleMode.bus.regs ModeRegister = 2 ∧
    (setHighSpeedI2CMode true devIdleMode).2.bus.regs ModeRegister = 0 ∧
    (setHighSpeedI2CMode true devIdleMode).2.bus.trace =
      [Transaction.readTx ModeRegister 1, Transaction.writeTx ModeRegister 0] ∧
    (setHighSpeedI2CMode true devZeroMode).2.bus.regs ModeRegister = 0 := by
  decide

/-- Claim C2 (code bug evidence): on a device that never reports ready, the
single-shot read with max_retries = 0 performs no status poll at all and
proceeds straight to the data read (the while condition
max_retries && retries++ < max_retries is false immediately), instead of
polling without bound as the claim and the function's own documentation state;
with max_retries = 3 it polls exactly 3 times and then proceeds to the read. -/
theorem pollLoop_skipped_when_maxRetries_zero :
    statusPolls (readScaledValuesSingle 0 7 devNeverReady).2.2.bus.trace = 0 ∧
    Transaction.readTx DataRegister 6 ∈ (readScaledValuesSingle 0 7 devNeverReady).2.2.bus.trace ∧
    statusPolls (readScaledValuesSingle 3 7 devNeverReady).2.2.bus.trace = 3 ∧
    Transaction.readTx DataRegister 6 ∈ (readScaledValuesSingle 3 7 devNeverReady).2.2.bus.trace := by
  decide

/-- Claim C1 (amended): getCalibration(update=true), when runPosTest and then
runNegTest both succeed, stores and returns calibUpdate pos neg -- the
element-wise average of the two readings divided per axis by the self-test
bias fields (x and y by 1160, z by 1080); in particular, for pos-test reading
(1160,1160,1080) and neg-test reading (-1160,-1160,-1080) the stored and
returned calibration is (0,0,0). -/
theorem getCalibration_stores_average_over_bias :
    (∀ (mr : Nat) (dt : ℚ) (s : HMC5883L),
      (runPosTest mr dt s).2.2.err_code = 0 →
      (runNegTest mr (ratToUint32 dt) (runPosTest mr dt s).2.2).2.2.err_code = 0 →
      (getCalibration true mr dt s).1 =
        calibUpdate (runPosTest mr dt s).1
          (runNegTest mr (ratToUint32 dt) (runPosTest mr dt s).2.2).1 ∧
      (getCalibration true mr dt s).2.calibration =
        calibUpdate (runPosTest mr dt s).1
          (runNegTest mr (ratToUint32 dt) (runPosTest mr dt s).2.2).1)
    ∧ calibUpdate ⟨1160, 1160, 1080⟩ ⟨-1160, -1160, -1080⟩ = (⟨0, 0, 0⟩ : Vec3 ℚ) := by
  constructor
  · intro mr dt s h1 h2
    constructor <;> simp [getCalibration, h1, h2]
  · norm_num [calibUpdate, HMC_BIAS_XY, HMC_BIAS_Z, Vec3.mk.injEq]

/-- Counterexample for C1 as stated: the calibration the code stores for
pos-test reading (1160,1160,1080) and neg-test reading (-1160,-1160,-1080)
is not (1.0,1.0,1.0). -/
theorem calibration_unit_example_refuted :
    calibUpdate ⟨1160, 1160, 1080⟩ ⟨-1160, -1160, -1080⟩ ≠ (⟨1, 1, 1⟩ : Vec3 ℚ) := by
  norm_num [calibUpdate, HMC_BIAS_XY, HMC_BIAS_Z, Vec3.mk.injEq]

/-- Witness for C1: a full fault-free calibration run on a healthy device in
which both self tests succeed. -/
theorem getCalibration_stores_average_over_bias_witness :
    (runPosTest 1 0 devCal).2.2.err_code = 0 ∧
    (runNegTest 1 (ratToUint32 0) (runPosTest 1 0 devCal).2.2).2.2.err_code = 0 ∧
    (getCalibration true 1 0 devCal).1 =
      calibUpdate (runPosTest 1 0 devCal).1
        (runNegTest 1 (ratToUint32 0) (runPosTest 1 0 devCal).2.2).1 :=
  ⟨by decide, by decide,
   ((getCalibration_stores_average_over_bias.1 1 0 devCal (by decide) (by decide)).1)⟩

/-- Claim C3 (amended): in readScaledValuesSingle and in runPosTest, restoration
of the prior mode/bias is attempted even when the preceding measurement read
failed; if the restoration succeeds, the originally-encountered error is
reported, but when both the measurement read and the restoration fail, the
error reported to the caller is the restore-time error, which overwrites the
original one. -/
theorem restore_always_attempted_restore_error_wins :
    (∀ (mr : Nat) (dt : ℚ) (s : HMC5883L) (mode : Nat) (s1 s2 s3 : HMC5883L)
       (v : Vec3 ℚ) (sat : Option Nat) (s4 : HMC5883L) (e2 : Nat) (s5 : HMC5883L),
      ¬(dt < 0) →
      getMeasurementMode false s = (mode, s1) →
      setMeasurementMode 1 s1 = (0, s2) →
      (if mr = 0 then PollResult.pollDone { s2 with err_code := 0 }
       else pollStatus mr { s2 with err_code := 0 }) = PollResult.pollDone s3 →
      readScaledValues s3 = (v, sat, s4) →
      setMeasurementMode mode s4 = (e2, s5) →
      readScaledValuesSingle mr dt s =
        ((if (if e2 = 0 then s4.err_code else e2) = 0 then v else ⟨0, 0, 0⟩), sat,
         { s5 with err_code := if e2 = 0 then s4.err_code else e2 }))
    ∧ (∀ (mr : Nat) (dt : ℚ) (s sb : HMC5883L) (v : Vec3 ℚ) (sat : Option Nat)
         (s2 : HMC5883L) (e2 : Nat) (s3 : HMC5883L),
      setBiasMode 1 s = (0, sb) →
      readScaledValuesSingle mr dt { sb with err_code := 0 } = (v, sat, s2) →
      setBiasMode 0 s2 = (e2, s3) →
      runPosTest mr dt s =
        ((if (if e2 = 0 then s2.err_code else e2) = 0 then v else ⟨0, 0, 0⟩), sat,
         { s3 with err_code := if e2 = 0 then s2.err_code else e2 })) := by
  constructor
  · intro mr dt s mode s1 s2 s3 v sat s4 e2 s5 h0 h1 h2 h3 h4 h5
    simp only [readScaledValuesSingle, h0, if_false, h1, h2, h3, h4, h5]
    by_cases h : (if e2 = 0 then s4.err_code else e2) = 0 <;> simp [h]
  · intro mr dt s sb v sat s2 e2 s3 h1 h2 h3
    simp only [runPosTest, h1, h2, h3]
    by_cases h : (if e2 = 0 then s2.err_code else e2) = 0 <;> simp [h]

/-- Counterexample for C3 as stated: a run in which the measurement read fails
with transport code 2 (the fourth scheduled transaction) and the mode-restore
read fails with code 3 (the fifth); the error reported to the caller is 3, the
restore-time error, not the original 2.  The trace shows the restoration was
attempted after the failed data read; the same happens for runPosTest with
faults on the data read (code 2) and on the bias-restore read (code 3). -/
theorem restore_error_counterexample :
    devReadAndRestoreFail.bus.faults = [0, 0, 0, 2, 3] ∧
    (readScaledValuesSingle 1 7 devReadAndRestoreFail).2.2.err_code = 3 ∧
    (readScaledValuesSingle 1 7 devReadAndRestoreFail).2.2.bus.trace =
      [Transaction.readTx ModeRegister 1, Transaction.writeTx ModeRegister 1,
       Transaction.readTx StatusRegister 1, Transaction.readTx DataRegister 6,
       Transaction.readTx ModeRegister 1] ∧
    devPosTestRestoreFail.bus.faults = [0, 0, 0, 0, 0, 2, 0, 0, 3] ∧
    (runPosTest 1 7 devPosTestRestoreFail).2.2.err_code = 3 := by
  decide

/-- Witness for C3: both parts of the theorem applied to the concrete runs. -/
theorem restore_always_attempted_restore_error_wins_witness :
    readScaledValuesSingle 1 7 devReadAndRestoreFail =
      ((if (if c3e2 = 0 then c3s4.err_code else c3e2) = 0 then c3v else ⟨0, 0, 0⟩), c3sat,
       { c3s5 with err_code := if c3e2 = 0 then c3s4.err_code else c3e2 }) ∧
    runPosTest 1 7 devPosTestRestoreFail =
      ((if (if c3be2 = 0 then c3bs2.err_code else c3be2) = 0 then c3bv else ⟨0, 0, 0⟩), c3bsat,
       { c3bs3 with err_code := if c3be2 = 0 then c3bs2.err_code else c3be2 }) :=
  ⟨restore_always_attempted_restore_error_wins.1 1 7 devReadAndRestoreFail
     0 devReadAndRestoreFail c3s2 c3s3 c3v c3sat c3s4 c3e2 c3s5
     (by norm_num) rfl rfl rfl rfl rfl,
   restore_always_attempted_restore_error_wins.2 1 7 devPosTestRestoreFail
     c3bsb c3bv c3bsat c3bs2 c3be2 c3bs3 rfl rfl rfl⟩

/-- Claim C4 (amended): initialize(skipConfig=true) on a fault-free bus resets
the calibration to (1,1,1), performs exactly five register reads and no write
(the device registers are untouched), refreshes every cached setting from the
device, and returns the value of the final getBiasMode(true) call -- the
refreshed bias mode, i.e. ConfigRegisterA AND 0x3 -- rather than 0 or an error
code. -/
theorem initNoConfig_readsOnly_returnsBiasMode :
    ∀ (s : HMC5883L), s.bus.faults = [] →
      (initDriver true s).1 = (s.bus.regs ConfigRegisterA % 256) &&& 0x3 ∧
      (initDriver true s).2.calibration = ⟨1, 1, 1⟩ ∧
      (∀ r, (initDriver true s).2.bus.regs r = s.bus.regs r) ∧
      (initDriver true s).2.bus.trace = s.bus.trace ++
        [Transaction.readTx ConfigRegisterB 1, Transaction.readTx ConfigRegisterA 1,
         Transaction.readTx ConfigRegisterA 1, Transaction.readTx ModeRegister 1,
         Transaction.readTx ConfigRegisterA 1] ∧
      (initDriver true s).2.gain = (s.bus.regs ConfigRegisterB % 256) >>> 5 ∧
      (initDriver true s).2.averagingRate = ((s.bus.regs ConfigRegisterA % 256) &&& 0x60) >>> 5 ∧
      (initDriver true s).2.outputRate = ((s.bus.regs ConfigRegisterA % 256) &&& 0x1c) >>> 2 ∧
      (initDriver true s).2.measurementMode = (s.bus.regs ModeRegister % 256) &&& 0x3 ∧
      (initDriver true s).2.biasMode = (s.bus.regs ConfigRegisterA % 256) &&& 0x3 ∧
      (initDriver true s).2.err_code = 0 := by
  intro s hf
  simp [initDriver, getGain, getAveragingRate, getOutputRate, getMeasurementMode,
    getBiasMode, I2CBus.readByte, I2CBus.nextFault, hf]

/-- Counterexample for C4 as stated: on a device whose first register read
fails with transport code 2, initialize(skipConfig=true) does not stop (all
five reads are still issued), does not return the read's error code (it
returns 0, the refreshed bias mode), and the calibration does not stay
unchanged (it is reset from (5,5,5) to (1,1,1)). -/
theorem initNoConfig_counterexample :
    devFirstReadFails.bus.faults = [2] ∧
    devFirstReadFails.calibration = ⟨5, 5, 5⟩ ∧
    (initDriver true devFirstReadFails).1 = 0 ∧
    (initDriver true devFirstReadFails).2.err_code = 0 ∧
    (initDriver true devFirstReadFails).2.calibration = ⟨1, 1, 1⟩ ∧
    (initDriver true devFirstReadFails).2.bus.trace =
      [Transaction.readTx ConfigRegisterB 1, Transaction.readTx ConfigRegisterA 1,
       Transaction.readTx ConfigRegisterA 1, Transaction.readTx ModeRegister 1,
       Transaction.readTx ConfigRegisterA 1] := by
  refine ⟨rfl, rfl, ?_⟩
  decide

/-- Witness for C4: the amended theorem applied to the fault-free device with
distinctive register contents (ConfigA 0x6e, so the returned bias mode is 2
even though every read succeeded). -/
theorem initNoConfig_readsOnly_returnsBiasMode_witness :
    devDistinct.bus.faults = [] ∧
    (initDriver true devDistinct).1 = (devDistinct.bus.regs ConfigRegisterA % 256) &&& 0x3 ∧
    (initDriver true devDistinct).2.err_code = 0 :=
  ⟨rfl,
   (initNoConfig_readsOnly_returnsBiasMode devDistinct rfl).1,
   (initNoConfig_readsOnly_returnsBiasMode devDistinct rfl).2.2.2.2.2.2.2.2.2⟩

/-! Bit-field facts about the three Config A read-modify-write operations,
established once over all byte values and all valid field values. -/

set_option maxRecDepth 10000 in
theorem avgW : ∀ (v : Fin 256) (a : Fin 4),
    (((a.1 <<< 5) ||| (v.1 &&& 0x9f)) % 256) < 256 ∧
    ((((a.1 <<< 5) ||| (v.1 &&& 0x9f)) % 256) >>> 5) &&& 0x3 = a.1 ∧
    ((((a.1 <<< 5) ||| (v.1 &&& 0x9f)) % 256) >>> 2) &&& 0x7 = (v.1 >>> 2) &&& 0x7 ∧
    (((a.1 <<< 5) ||| (v.1 &&& 0x9f)) % 256) &&& 0x3 = v.1 &&& 0x3 := by
  decide

set_option maxRecDepth 10000 in
theorem outW : ∀ (v : Fin 256) (o : Fin 7),
    (((o.1 <<< 2) ||| (v.1 &&& 0xe3)) % 256) < 256 ∧
    ((((o.1 <<< 2) ||| (v.1 &&& 0xe3)) % 256) >>> 2) &&& 0x7 = o.1 ∧
    ((((o.1 <<< 2) ||| (v.1 &&& 0xe3)) % 256) >>> 5) &&& 0x3 = (v.1 >>> 5) &&& 0x3 ∧
    (((o.1 <<< 2) ||| (v.1 &&& 0xe3)) % 256) &&& 0x3 = v.1 &&& 0x3 := by
  decide

set_option maxRecDepth 10000 in
theorem biasW : ∀ (v : Fin 256) (b : Fin 3),
    ((b.1 ||| (v.1 &&& 0xfc)) % 256) < 256 ∧
    ((b.1 ||| (v.1 &&& 0xfc)) % 256) &&& 0x3 = b.1 ∧
    (((b.1 ||| (v.1 &&& 0xfc)) % 256) >>> 5) &&& 0x3 = (v.1 >>> 5) &&& 0x3 ∧
    (((b.1 ||| (v.1 &&& 0xfc)) % 256) >>> 2) &&& 0x7 = (v.1 >>> 2) &&& 0x7 := by
  decide

theorem avgW' {v a : Nat} (hv : v < 256) (ha : a ≤ 3) :
    ((a <<< 5 ||| v &&& 159) % 256) < 256 ∧
    (((a <<< 5 ||| v &&& 159) % 256) >>> 5) &&& 3 = a ∧
    (((a <<< 5 ||| v &&& 159) % 256) >>> 2) &&& 7 = (v >>> 2) &&& 7 ∧
    ((a <<< 5 ||| v &&& 159) % 256) &&& 3 = v &&& 3 :=
  avgW ⟨v, hv⟩ ⟨a, by omega⟩

theorem outW' {v o : Nat} (hv : v < 256) (ho : o ≤ 6) :
    ((o <<< 2 ||| v &&& 227) % 256) < 256 ∧
    (((o <<< 2 ||| v &&& 227) % 256) >>> 2) &&& 7 = o ∧
    (((o <<< 2 ||| v &&& 227) % 256) >>> 5) &&& 3 = (v >>> 5) &&& 3 ∧
    ((o <<< 2 ||| v &&& 227) % 256) &&& 3 = v &&& 3 :=
  outW ⟨v, hv⟩ ⟨o, by omega⟩

theorem biasW' {v b : Nat} (hv : v < 256) (hb : b ≤ 2) :
    ((b ||| v &&& 252) % 256) < 256 ∧
    ((b ||| v &&& 252) % 256) &&& 3 = b ∧
    (((b ||| v &&& 252) % 256) >>> 5) &&& 3 = (v >>> 5) &&& 3 ∧
    (((b ||| v &&& 252) % 256) >>> 2) &&& 7 = (v >>> 2) &&& 7 :=
  biasW ⟨v, hv⟩ ⟨b, by omega⟩

/-- Claim C6: after setting averaging rate a, output rate o and bias mode b
(all valid) on a fault-free bus, changing any one of the three with its setter
leaves the other two fields' bits in the device's Config A register, and their
cached values, unchanged. -/
theorem configRegisterA_rmw_isolation :
    ∀ (a o b a2 o2 b2 : Nat) (s : HMC5883L),
      a ≤ 3 → o ≤ 6 → b ≤ 2 → a2 ≤ 3 → o2 ≤ 6 → b2 ≤ 2 → s.bus.faults = [] →
      (((setAveragingRate a2 (configABC a o b s)).2.bus.regs ConfigRegisterA >>> 2) &&& 0x7 = o ∧
       (setAveragingRate a2 (configABC a o b s)).2.bus.regs ConfigRegisterA &&& 0x3 = b ∧
       (setAveragingRate a2 (configABC a o b s)).2.outputRate = o ∧
       (setAveragingRate a2 (configABC a o b s)).2.biasMode = b) ∧
      (((setOutputRate o2 (configABC a o b s)).2.bus.regs ConfigRegisterA >>> 5) &&& 0x3 = a ∧
       (setOutputRate o2 (configABC a o b s)).2.bus.regs ConfigRegisterA &&& 0x3 = b ∧
       (setOutputRate o2 (configABC a o b s)).2.averagingRate = a ∧
       (setOutputRate o2 (configABC a o b s)).2.biasMode = b) ∧
      (((setBiasMode b2 (configABC a o b s)).2.bus.regs ConfigRegisterA >>> 5) &&& 0x3 = a ∧
       ((setBiasMode b2 (configABC a o b s)).2.bus.regs ConfigRegisterA >>> 2) &&& 0x7 = o ∧
       (setBiasMode b2 (configABC a o b s)).2.averagingRate = a ∧
       (setBiasMode b2 (configABC a o b s)).2.outputRate = o) := by
  intro a o b a2 o2 b2 s ha ho hb ha2 ho2 hb2 hf
  have ha' : ¬(a > 3) := by omega
  have ho' : ¬(o > 6) := by omega
  have hb' : ¬(b > 2) := by omega
  have ha2' : ¬(a2 > 3) := by omega
  have ho2' : ¬(o2 > 6) := by omega
  have hb2' : ¬(b2 > 2) := by omega
  have hv0 : s.bus.regs 0 % 256 < 256 := Nat.mod_lt _ (by norm_num)
  obtain ⟨h1lt, h1a, h1o, h1b⟩ := avgW' hv0 ha
  obtain ⟨h2lt, h2o, h2a, h2b⟩ := outW' h1lt ho
  obtain ⟨h3lt, h3b, h3a, h3o⟩ := biasW' h2lt hb
  obtain ⟨h4lt, h4a2, h4o, h4b⟩ := avgW' h3lt ha2
  obtain ⟨h5lt, h5o2, h5a, h5b⟩ := outW' h3lt ho2
  obtain ⟨h6lt, h6b2, h6a, h6o⟩ := biasW' h3lt hb2
  simp [configABC, setAveragingRate, setOutputRate, setBiasMode,
    I2CBus.readByte, I2CBus.writeByte, I2CBus.nextFault, hf, ha', ho', hb', ha2', ho2', hb2',
    ConfigRegisterA]
  exact ⟨⟨by rw [h4o, h3o, h2o], by rw [h4b, h3b]⟩,
         ⟨by rw [h5a, h3a, h2a, h1a], by rw [h5b, h3b]⟩,
         by rw [h6a, h3a, h2a, h1a], by rw [h6o, h3o, h2o]⟩

/-- Witness for C6: isolation at averaging 1, rate 4, bias 2 on a fault-free
device whose Config A initially holds 0xff, then changing one field at a time. -/
theorem configRegisterA_rmw_isolation_witness :
    devAllOnes.bus.faults = [] ∧
    ((setAveragingRate 3 (configABC 1 4 2 devAllOnes)).2.bus.regs ConfigRegisterA >>> 2) &&& 0x7 = 4 ∧
    (setAveragingRate 3 (configABC 1 4 2 devAllOnes)).2.bus.regs ConfigRegisterA &&& 0x3 = 2 ∧
    (setAveragingRate 3 (configABC 1 4 2 devAllOnes)).2.outputRate = 4 ∧
    (setAveragingRate 3 (configABC 1 4 2 devAllOnes)).2.biasMode = 2 ∧
    ((setOutputRate 6 (configABC 1 4 2 devAllOnes)).2.bus.regs ConfigRegisterA >>> 5) &&& 0x3 = 1 ∧
    ((setBiasMode 1 (configABC 1 4 2 devAllOnes)).2.bus.regs ConfigRegisterA >>> 2) &&& 0x7 = 4 :=
  have h := configRegisterA_rmw_isolation 1 4 2 3 6 1 devAllOnes
    (by decide) (by decide) (by decide) (by decide) (by decide) (by decide) rfl
  ⟨rfl, h.1.1, h.1.2.1, h.1.2.2.1, h.1.2.2.2, h.2.1.1, h.2.2.2.1⟩
